import Mathlib

/-! # windows-ipv6-monitor-service: a shallow embedding

The Go program has three source files:

* `pkg/ipv6/checker.go`      : `GetGlobalIPv6`, one HTTP GET, body trimmed;
* `pkg/telegram/notifier.go` : `Notifier.SendMessage`, one HTTP form POST;
* `cmd/service/main.go`      : `ipv6Service.Execute`, `ipv6Service.monitorIPv6`, `main`.

Modelling conventions.

* A Go `string` is a Lean `String`; `fmt.Sprintf` with `%s` verbs is concatenation.
* A Go `error` is the `String` of its message; `nil` is `none` (or `Except.ok`).
* Network calls are functions of the outcome the network hands back
  (`GetOutcome`, `PostOutcome`).  The outcomes consumed by one iteration of a loop are
  carried by the event that triggers the iteration.
* Everything the program does to the outside world is recorded, in program order, in a
  list of `Effect`s: logger calls, probe calls, `SendMessage` calls, status reports to the
  service manager, the stop channel and the ticker.
* `time.Duration` is a signed 64-bit count of nanoseconds: an `Int` with explicit wrapping.
-/

namespace IPv6Monitor

/-! ## Go standard library -/

/-- Go `unicode.IsSpace`: the Latin-1 spaces `\t \n \v \f \r`, space, U+0085, U+00A0, and
the code points of category Z. -/
def isSpace (c : Char) : Bool :=
  let n := c.toNat
  n == 0x09 || n == 0x0A || n == 0x0B || n == 0x0C || n == 0x0D || n == 0x20 ||
  n == 0x85 || n == 0xA0 || n == 0x1680 || (decide (0x2000 ≤ n) && decide (n ≤ 0x200A)) ||
  n == 0x2028 || n == 0x2029 || n == 0x202F || n == 0x205F || n == 0x3000

/-- Go `strings.TrimSpace`: all leading and trailing white space removed. -/
def TrimSpace (s : String) : String :=
  String.mk ((s.data.dropWhile isSpace).reverse.dropWhile isSpace).reverse

/-- One nanosecond-counted minute, Go `time.Minute`. -/
def Minute : Int := 60 * 1000000000

/-- Two-complement wrapping of an integer into the `int64` range. -/
def wrapInt64 (x : Int) : Int := (x + 2 ^ 63) % 2 ^ 64 - 2 ^ 63

/-- Go `time.NewTicker(d)`: panics on a non-positive period, otherwise yields a ticker of
period `d`. -/
def NewTicker (d : Int) : Except String Int :=
  if d ≤ 0 then .error "non-positive interval for NewTicker" else .ok d

/-! ## `pkg/ipv6/checker.go` -/

/-- What `http.Get` followed by `io.ReadAll(resp.Body)` can hand back: a transport error
and no response, or a response with a status code whose body is read in full or fails to
be read. -/
inductive GetOutcome where
  | transportError (err : String)
  | response (statusCode : Nat) (body : Except String String)
  deriving Repr

/-- The function `GetGlobalIPv6` of `checker.go`: `.ok a` is `(a, nil)`, `.error e` is
`("", e)`. -/
def GetGlobalIPv6 : GetOutcome → Except String String
  | .transportError err => .error err
  | .response _ (.error err) => .error err
  | .response _ (.ok body) => .ok (TrimSpace body)

/-! ## `pkg/telegram/notifier.go` -/

/-- The struct `Notifier`. -/
structure Notifier where
  botToken : String
  chatID : String
  deriving DecidableEq, Repr

/-- The constructor `NewNotifier`. -/
def NewNotifier (botToken chatID : String) : Notifier :=
  { botToken := botToken, chatID := chatID }

/-- What `http.PostForm` can hand back: a transport error, or a response with a status
code. -/
inductive PostOutcome where
  | transportError (err : String)
  | response (statusCode : Nat)
  deriving DecidableEq, Repr

/-- The URL `SendMessage` posts to. -/
def Notifier.apiURL (n : Notifier) : String :=
  "https://api.telegram.org/bot" ++ n.botToken ++ "/sendMessage"

/-- The form values `SendMessage` posts, in the order they are added. -/
def Notifier.params (n : Notifier) (message : String) : List (String × String) :=
  [("chat_id", n.chatID), ("text", message), ("parse_mode", "HTML")]

/-- The method `Notifier.SendMessage` as a function of what the POST hands back: `none` is
a `nil` error. -/
def Notifier.SendMessage (_n : Notifier) (_message : String) : PostOutcome → Option String
  | .transportError err => some ("failed to send telegram message: " ++ err)
  | .response statusCode =>
    if statusCode ≠ 200 then
      some ("telegram API returned non-200 status code: " ++ toString statusCode)
    else none

/-! ## `golang.org/x/sys/windows/svc` declarations used by `Execute` -/

/-- Service control codes `svc.Cmd`, with the numeric values of the Windows API. -/
abbrev Cmd := Nat

def Cmd.Stop : Cmd := 1
def Cmd.Pause : Cmd := 2
def Cmd.Continue : Cmd := 3
def Cmd.Interrogate : Cmd := 4
def Cmd.Shutdown : Cmd := 5

/-- Service states `svc.State`. -/
inductive State where
  | Stopped | StartPending | StopPending | Running | ContinuePending | PausePending | Paused
  deriving DecidableEq, Repr

def AcceptStop : Nat := 1
def AcceptShutdown : Nat := 4

/-- The struct `svc.Status`; a field left out of a Go literal is zero. -/
structure Status where
  State : State
  Accepts : Nat := 0
  CheckPoint : Nat := 0
  WaitHint : Nat := 0
  ProcessId : Nat := 0
  Win32ExitCode : Nat := 0
  ServiceSpecificExitCode : Nat := 0
  deriving DecidableEq, Repr

/-- The struct `svc.ChangeRequest`. -/
structure ChangeRequest where
  Cmd : Cmd
  EventType : Nat := 0
  EventData : Nat := 0
  CurrentStatus : Status
  Context : Nat := 0
  deriving DecidableEq, Repr

/-! ## `cmd/service/main.go` -/

/-- Severity of a logger call. -/
inductive Level where
  | debug | info | error | fatal
  deriving DecidableEq, Repr

/-- One externally visible action of the program. -/
inductive Effect where
  /-- a call of `s.logger.Debug/Info/Error` with its message and fields -/
  | log (level : Level) (msg : String) (fields : List (String × String))
  /-- a call of `ipv6.GetGlobalIPv6()` -/
  | probe
  /-- a call of `notifier.SendMessage(message)` -/
  | send (n : Notifier) (message : String)
  /-- a value sent on the `changes` channel -/
  | status (st : Status)
  /-- the assignment `s.stopChan = make(chan bool)` -/
  | makeStopChan
  /-- the call `close(s.stopChan)` -/
  | closeStopChan
  /-- the statement `go s.monitorIPv6()`, with the fields of `s` -/
  | spawnMonitor (checkInterval : Int) (botToken chatID : String)
  /-- the deferred `ticker.Stop()` -/
  | tickerStop
  deriving DecidableEq, Repr

/-- The struct `ipv6Service`.  The logger is represented by the `Effect.log` entries and the
stop channel by `Effect.makeStopChan`, `Effect.closeStopChan` and `SelectEvent.stop`. -/
structure ipv6Service where
  checkInterval : Int
  botToken : String
  chatID : String
  deriving DecidableEq, Repr

/-- The texts of the alerts sent by `monitorIPv6`. -/
def startedMessage (currentIPv6 : String) : String :=
  "🚀 Service started\nCurrent IPv6: <code>" ++ currentIPv6 ++ "</code>"

def changedMessage (lastIPv6 currentIPv6 : String) : String :=
  "📢 IPv6 address changed\nOld: <code>" ++ lastIPv6 ++ "</code>\nNew: <code>" ++
    currentIPv6 ++ "</code>"

def stoppedMessage : String := "🛑 Service stopped"

/-- The local state of `monitorIPv6`: the variable `lastIPv6`, and whether the function is
still inside its `for` loop (`running = false` once it has returned). -/
structure LoopState where
  lastIPv6 : String
  running : Bool
  deriving DecidableEq, Repr

/-- The pattern `err = notifier.SendMessage(m); if err != nil { s.logger.Error(failure, err) }`. -/
def sendAndLog (n : Notifier) (message : String) (post : PostOutcome) (failure : String) :
    List Effect :=
  .send n message ::
    match n.SendMessage message post with
    | some err => [.log .error failure [("error", err)]]
    | none => []

/-- Lines 134-146 of `main.go`: `var lastIPv6 string` and the initial check. -/
def startupStep (n : Notifier) (get : GetOutcome) (post : PostOutcome) :
    LoopState × List Effect :=
  match GetGlobalIPv6 get with
  | .ok currentIPv6 =>
    ({ lastIPv6 := currentIPv6, running := true },
      [.probe, .log .info "Initial IPv6 address detected" [("ipv6", currentIPv6)]] ++
        sendAndLog n (startedMessage currentIPv6) post "Failed to send initial notification")
  | .error err =>
    ({ lastIPv6 := "", running := true },
      [.probe, .log .error "Failed to get initial IPv6 address" [("error", err)]])

/-- Lines 150-173 of `main.go`: the `case <-ticker.C` branch of the `select`. -/
def tickStep (n : Notifier) (st : LoopState) (get : GetOutcome) (post : PostOutcome) :
    LoopState × List Effect :=
  match GetGlobalIPv6 get with
  | .error err =>
    (st, [.probe, .log .error "Failed to get IPv6 address" [("error", err)]])
  | .ok currentIPv6 =>
    ({ st with lastIPv6 := currentIPv6 },
      [.probe, .log .debug "IPv6 check completed" [("ipv6", currentIPv6)]] ++
        (if st.lastIPv6 ≠ "" ∧ currentIPv6 ≠ st.lastIPv6 then
          .log .info "IPv6 address changed" [("old", st.lastIPv6), ("new", currentIPv6)] ::
            sendAndLog n (changedMessage st.lastIPv6 currentIPv6) post
              "Failed to send notification"
        else []))

/-- Lines 175-182 of `main.go`: the `case <-s.stopChan` branch, then the deferred
`ticker.Stop()` that runs on `return`. -/
def stopStep (n : Notifier) (st : LoopState) (post : PostOutcome) : LoopState × List Effect :=
  ({ st with running := false },
    .log .info "Stopping IPv6 monitoring" [] ::
      (sendAndLog n stoppedMessage post "Failed to send stop notification" ++ [.tickerStop]))

/-- Which branch one `select` of the loop takes, with the outcomes of the network calls
that branch makes (`post` is consumed only if the branch sends). -/
inductive SelectEvent where
  | tick (get : GetOutcome) (post : PostOutcome)
  | stop (post : PostOutcome)
  deriving Repr

/-- The `for { select { ... } }` loop of `monitorIPv6` over the branches taken.  When the
events run out the loop is blocked in `select`, still running; after the stop branch the
function has returned and later events are not looked at. -/
def runLoop (n : Notifier) : LoopState → List SelectEvent → LoopState × List Effect
  | st, [] => (st, [])
  | st, .tick get post :: rest =>
    let r := tickStep n st get post
    let r2 := runLoop n r.1 rest
    (r2.1, r.2 ++ r2.2)
  | st, .stop post :: _ => stopStep n st post

/-- The body of `monitorIPv6` once the ticker exists: notifier, initial check, loop. -/
def monitorBody (s : ipv6Service) (get : GetOutcome) (post : PostOutcome)
    (events : List SelectEvent) : LoopState × List Effect :=
  let notifier := NewNotifier s.botToken s.chatID
  let r := startupStep notifier get post
  let r2 := runLoop notifier r.1 events
  (r2.1, r.2 ++ r2.2)

/-- The method `ipv6Service.monitorIPv6`: `.error` is the panic of `time.NewTicker`. -/
def monitorIPv6 (s : ipv6Service) (get : GetOutcome) (post : PostOutcome)
    (events : List SelectEvent) : Except String (LoopState × List Effect) :=
  match NewTicker s.checkInterval with
  | .error p => .error p
  | .ok _ => .ok (monitorBody s get post events)

/-- The messages of the `SendMessage` calls in a list of effects, in order. -/
def alerts : List Effect → List String
  | [] => []
  | .send _ message :: rest => message :: alerts rest
  | _ :: rest => alerts rest

/-- The number of probe calls in a list of effects. -/
def probes : List Effect → Nat
  | [] => 0
  | .probe :: rest => probes rest + 1
  | _ :: rest => probes rest

/-- The constant `cmdsAccepted` of `Execute`. -/
def cmdsAccepted : Nat := AcceptStop ||| AcceptShutdown

/-- The labelled `for { select { case c := <-r: switch c.Cmd ... } }` loop of `Execute` over
the requests that arrive on `r`.  The second component is `none` while the loop is blocked
in the receive (the requests ran out), and `some rest` after `break loop`, where `rest` are
the requests that were never received. -/
def executeLoop : List ChangeRequest → List Effect × Option (List ChangeRequest)
  | [] => ([], none)
  | c :: rest =>
    if c.Cmd = Cmd.Interrogate then
      let r := executeLoop rest
      (.status c.CurrentStatus :: r.1, r.2)
    else if c.Cmd = Cmd.Stop ∨ c.Cmd = Cmd.Shutdown then
      ([.log .info "Received shutdown command" [], .closeStopChan], some rest)
    else
      let r := executeLoop rest
      (.log .error "Unexpected control request" [("command", toString c.Cmd)] :: r.1, r.2)

/-- What a call of `Execute` amounts to: its effects, its return value `(ssec, errno)`
(`none` while it has not returned) and the requests it never received. -/
structure ExecRun where
  effects : List Effect
  ret : Option (Bool × Nat)
  unread : List ChangeRequest
  deriving DecidableEq, Repr

/-- The method `ipv6Service.Execute` as a function of the requests arriving on `r`. -/
def Execute (s : ipv6Service) (_args : List String) (r : List ChangeRequest) : ExecRun :=
  let start : List Effect :=
    [.status { State := .StartPending },
     .log .info "Starting service" [],
     .status { State := .Running, Accepts := cmdsAccepted },
     .makeStopChan,
     .spawnMonitor s.checkInterval s.botToken s.chatID]
  match executeLoop r with
  | (eff, none) => { effects := start ++ eff, ret := none, unread := [] }
  | (eff, some rest) =>
    { effects := start ++ eff ++ [.status { State := .StopPending }],
      ret := some (false, 0),
      unread := rest }

/-- The package-level flag variables of `main.go`, with the defaults of the flag
definitions.  `checkInterval` is a Go `int`, taken as a 64-bit value. -/
structure Flags where
  logLevel : String := "info"
  checkInterval : Int := 5
  botToken : String := ""
  chatID : String := ""
  logFile : String := "ipv6-monitor.log"
  deriving DecidableEq, Repr

/-- How the `Run` closure of `main` ends once the logger exists: `logger.Fatal` (which
exits the process), `svc.Run(svc)` (the service manager then calls `Execute`, which spawns
`monitorIPv6`), or console mode (`go svc.monitorIPv6()` and then `select {}`). -/
inductive MainOutcome where
  | fatal (msg : String)
  | runService (s : ipv6Service)
  | consoleMode (s : ipv6Service)
  deriving DecidableEq, Repr

/-- The `Run` closure of `main`, lines 196-225, as a function of the flags and of what
`svc.IsWindowsService()` returns. -/
def main (f : Flags) (isService : Except String Bool) : MainOutcome :=
  if f.botToken = "" ∨ f.chatID = "" then
    .fatal "Telegram bot token and chat ID are required"
  else
    let svc : ipv6Service :=
      { checkInterval := wrapInt64 (f.checkInterval * Minute),
        botToken := f.botToken,
        chatID := f.chatID }
    match isService with
    | .error _ => .fatal "Failed to determine if running as service"
    | .ok true => .runService svc
    | .ok false => .consoleMode svc

/-- The service value on which `monitorIPv6` is started, if `main` gets that far. -/
def MainOutcome.startsMonitor : MainOutcome → Option ipv6Service
  | .fatal _ => none
  | .runService s => some s
  | .consoleMode s => some s

/-! ## Vocabulary of the properties -/

/-- The values reported on the `changes` channel, in order. -/
def statuses : List Effect → List Status
  | [] => []
  | .status st :: rest => st :: statuses rest
  | _ :: rest => statuses rest

/-- The number of times the stop channel is closed. -/
def stopSignals : List Effect → Nat
  | [] => 0
  | .closeStopChan :: rest => stopSignals rest + 1
  | _ :: rest => stopSignals rest

/-- The addresses of the successful probes among a list of probe outcomes, in order. -/
def successes : List GetOutcome → List String
  | [] => []
  | g :: rest =>
    match GetGlobalIPv6 g with
    | .ok a => a :: successes rest
    | .error _ => successes rest

/-- Whether a `select` branch is the timer branch. -/
def SelectEvent.isTick : SelectEvent → Bool
  | .tick _ _ => true
  | .stop _ => false

/-- The probe outcomes of the timer branches of a list of events, in order. -/
def tickGets : List SelectEvent → List GetOutcome
  | [] => []
  | .tick get _ :: rest => get :: tickGets rest
  | .stop _ :: rest => tickGets rest

/-- The same `select` branch with the outcome of its POST replaced by `p`. -/
def SelectEvent.withPost (p : PostOutcome) : SelectEvent → SelectEvent
  | .tick get _ => .tick get p
  | .stop _ => .stop p

/-! ## Lemmas on effect lists -/

theorem alerts_append (xs ys : List Effect) : alerts (xs ++ ys) = alerts xs ++ alerts ys := by
  induction xs with
  | nil => rfl
  | cons x xs ih => cases x <;> simp [alerts, ih]

theorem probes_append (xs ys : List Effect) : probes (xs ++ ys) = probes xs + probes ys := by
  induction xs with
  | nil => simp [probes]
  | cons x xs ih => cases x <;> simp [probes, ih]; omega

theorem alerts_log_cons (l : Level) (m : String) (f : List (String × String))
    (rest : List Effect) : alerts (.log l m f :: rest) = alerts rest := rfl

theorem alerts_probe_cons (rest : List Effect) : alerts (.probe :: rest) = alerts rest := rfl

theorem alerts_tickerStop_cons (rest : List Effect) :
    alerts (.tickerStop :: rest) = alerts rest := rfl

theorem alerts_nil : alerts [] = [] := rfl

theorem probes_log_cons (l : Level) (m : String) (f : List (String × String))
    (rest : List Effect) : probes (.log l m f :: rest) = probes rest := rfl

theorem probes_tickerStop_cons (rest : List Effect) :
    probes (.tickerStop :: rest) = probes rest := rfl

theorem probes_nil : probes [] = 0 := rfl

theorem alerts_sendAndLog (n : Notifier) (message : String) (post : PostOutcome)
    (failure : String) : alerts (sendAndLog n message post failure) = [message] := by
  unfold sendAndLog
  cases n.SendMessage message post <;> simp [alerts]

theorem probes_sendAndLog (n : Notifier) (message : String) (post : PostOutcome)
    (failure : String) : probes (sendAndLog n message post failure) = 0 := by
  unfold sendAndLog
  cases n.SendMessage message post <;> simp [probes]

theorem tickStep_ok (n : Notifier) (st : LoopState) (get : GetOutcome) (post : PostOutcome)
    (B : String) (hget : GetGlobalIPv6 get = .ok B) :
    tickStep n st get post =
      ({ st with lastIPv6 := B },
        [.probe, .log .debug "IPv6 check completed" [("ipv6", B)]] ++
          (if st.lastIPv6 ≠ "" ∧ B ≠ st.lastIPv6 then
            .log .info "IPv6 address changed" [("old", st.lastIPv6), ("new", B)] ::
              sendAndLog n (changedMessage st.lastIPv6 B) post "Failed to send notification"
          else [])) := by
  simp only [tickStep, hget]

theorem tickStep_error (n : Notifier) (st : LoopState) (get : GetOutcome) (post : PostOutcome)
    (e : String) (hget : GetGlobalIPv6 get = .error e) :
    tickStep n st get post =
      (st, [.probe, .log .error "Failed to get IPv6 address" [("error", e)]]) := by
  simp only [tickStep, hget]

/-! ## The timer branch -/

theorem tickStep_changed (n : Notifier) (A B : String) (running : Bool)
    (get : GetOutcome) (post : PostOutcome)
    (hA : A ≠ "") (hB : B ≠ A) (hget : GetGlobalIPv6 get = .ok B) :
    alerts (tickStep n { lastIPv6 := A, running := running } get post).2 =
        [changedMessage A B] ∧
      (tickStep n { lastIPv6 := A, running := running } get post).1 =
        { lastIPv6 := B, running := running } := by
  rw [tickStep_ok n _ get post B hget]
  refine ⟨?_, rfl⟩
  rw [if_pos ⟨hA, hB⟩]
  simp only [alerts_append, alerts_probe_cons, alerts_log_cons, alerts_sendAndLog,
    alerts_nil, List.nil_append]

/-- C1: with a non-empty baseline `A`, a tick whose probe succeeds with `B ≠ A` makes
exactly one `SendMessage` call, with the text
`📢 IPv6 address changed\nOld: <code>A</code>\nNew: <code>B</code>`, in which both `A` and `B`
occur, and the state after the tick has `lastIPv6 = B` (and the loop is as running as it
was). -/
theorem tick_changed_sends_one_alert (n : Notifier) (A B : String) (running : Bool)
    (get : GetOutcome) (post : PostOutcome)
    (hA : A ≠ "") (hB : B ≠ A) (hget : GetGlobalIPv6 get = .ok B) :
    alerts (tickStep n { lastIPv6 := A, running := running } get post).2 =
        ["📢 IPv6 address changed\nOld: <code>" ++ A ++ "</code>\nNew: <code>" ++ B ++
          "</code>"] ∧
      A.data <:+: ("📢 IPv6 address changed\nOld: <code>" ++ A ++ "</code>\nNew: <code>" ++ B ++
          "</code>").data ∧
      B.data <:+: ("📢 IPv6 address changed\nOld: <code>" ++ A ++ "</code>\nNew: <code>" ++ B ++
          "</code>").data ∧
      (tickStep n { lastIPv6 := A, running := running } get post).1 =
        { lastIPv6 := B, running := running } := by
  rw [tickStep_ok n _ get post B hget]
  refine ⟨?_, ?_, ?_, rfl⟩
  · rw [if_pos ⟨hA, hB⟩]
    simp only [alerts_append, alerts_probe_cons, alerts_log_cons, alerts_sendAndLog,
      alerts_nil, List.nil_append, changedMessage]
  · simp only [String.data_append]
    exact (List.infix_append _ _ _).trans
      ((List.prefix_append _ _).isInfix.trans (List.prefix_append _ _).isInfix)
  · simp only [String.data_append]
    exact List.infix_append _ _ _

theorem tick_changed_sends_one_alert_witness :
    ("2001:db8::1" : String) ≠ "" ∧ ("2001:db8::2" : String) ≠ "2001:db8::1" ∧
      GetGlobalIPv6 (.response 200 (.ok "2001:db8::2\n")) = .ok "2001:db8::2" ∧
      alerts (tickStep ⟨"token", "42"⟩ { lastIPv6 := "2001:db8::1", running := true }
          (.response 200 (.ok "2001:db8::2\n")) (.response 200)).2 =
        ["📢 IPv6 address changed\nOld: <code>2001:db8::1</code>\nNew: <code>2001:db8::2</code>"] ∧
      (tickStep ⟨"token", "42"⟩ { lastIPv6 := "2001:db8::1", running := true }
          (.response 200 (.ok "2001:db8::2\n")) (.response 200)).1 =
        { lastIPv6 := "2001:db8::2", running := true } :=
  have h := tick_changed_sends_one_alert ⟨"token", "42"⟩ "2001:db8::1" "2001:db8::2" true
    (.response 200 (.ok "2001:db8::2\n")) (.response 200) (by decide) (by decide) rfl
  ⟨by decide, by decide, rfl, h.1, h.2.2.2⟩

/-- C2: a tick whose probe succeeds with `B`, taken with a baseline equal to `B` (verdict
Unchanged) or with no baseline, `lastIPv6 = ""` (verdict FirstObservation), makes no
`SendMessage` call; afterwards `lastIPv6 = B`, the loop is as running as it was, and when a
baseline existed the whole state is exactly what it was. -/
theorem tick_unchanged_or_first_sends_nothing (n : Notifier) (st : LoopState)
    (get : GetOutcome) (post : PostOutcome) (B : String)
    (hget : GetGlobalIPv6 get = .ok B)
    (hverdict : (st.lastIPv6 ≠ "" ∧ st.lastIPv6 = B) ∨ st.lastIPv6 = "") :
    alerts (tickStep n st get post).2 = [] ∧
      (tickStep n st get post).1.lastIPv6 = B ∧
      (tickStep n st get post).1.running = st.running ∧
      (st.lastIPv6 ≠ "" → (tickStep n st get post).1 = st) := by
  rw [tickStep_ok n st get post B hget]
  have hno : ¬ (st.lastIPv6 ≠ "" ∧ B ≠ st.lastIPv6) := by
    rcases hverdict with ⟨_, h⟩ | h
    · exact fun hc => hc.2 h.symm
    · exact fun hc => hc.1 h
  refine ⟨?_, rfl, rfl, ?_⟩
  · rw [if_neg hno]
    simp only [alerts_append, alerts_probe_cons, alerts_log_cons, alerts_nil, List.append_nil]
  · intro hne
    rcases hverdict with ⟨_, h⟩ | h
    · cases st
      simp only at h
      simp [h]
    · exact absurd h hne

theorem tick_unchanged_or_first_sends_nothing_witness :
    GetGlobalIPv6 (.response 200 (.ok "2001:db8::1\n")) = .ok "2001:db8::1" ∧
      alerts (tickStep ⟨"token", "42"⟩ { lastIPv6 := "2001:db8::1", running := true }
          (.response 200 (.ok "2001:db8::1\n")) (.response 200)).2 = [] ∧
      (tickStep ⟨"token", "42"⟩ { lastIPv6 := "2001:db8::1", running := true }
          (.response 200 (.ok "2001:db8::1\n")) (.response 200)).1.lastIPv6 = "2001:db8::1" :=
  have h := tick_unchanged_or_first_sends_nothing ⟨"token", "42"⟩
    { lastIPv6 := "2001:db8::1", running := true }
    (.response 200 (.ok "2001:db8::1\n")) (.response 200) "2001:db8::1" rfl
    (Or.inl ⟨by decide, rfl⟩)
  ⟨rfl, h.1, h.2.1⟩

/-- C3: a tick whose probe fails makes no `SendMessage` call and leaves the state
(`lastIPv6` and the running flag) exactly as it was, and the loop goes on: the rest of the
events is processed from that same state. -/
theorem tick_probe_failure_is_swallowed (n : Notifier) (st : LoopState) (get : GetOutcome)
    (post : PostOutcome) (e : String) (hget : GetGlobalIPv6 get = .error e) :
    alerts (tickStep n st get post).2 = [] ∧
      (tickStep n st get post).1 = st ∧
      ∀ rest : List SelectEvent,
        runLoop n st (.tick get post :: rest) =
          ((runLoop n st rest).1, (tickStep n st get post).2 ++ (runLoop n st rest).2) := by
  have hst : (tickStep n st get post).1 = st := by
    rw [tickStep_error n st get post e hget]
  refine ⟨?_, hst, ?_⟩
  · rw [tickStep_error n st get post e hget]
    simp only [alerts_probe_cons, alerts_log_cons, alerts_nil]
  · intro rest
    simp only [runLoop, hst]

theorem tick_probe_failure_is_swallowed_witness :
    GetGlobalIPv6 (.transportError "dial tcp: no route to host") =
        .error "dial tcp: no route to host" ∧
      alerts (tickStep ⟨"token", "42"⟩ { lastIPv6 := "2001:db8::1", running := true }
          (.transportError "dial tcp: no route to host") (.response 200)).2 = [] ∧
      (tickStep ⟨"token", "42"⟩ { lastIPv6 := "2001:db8::1", running := true }
          (.transportError "dial tcp: no route to host") (.response 200)).1 =
        { lastIPv6 := "2001:db8::1", running := true } :=
  have h := tick_probe_failure_is_swallowed ⟨"token", "42"⟩
    { lastIPv6 := "2001:db8::1", running := true }
    (.transportError "dial tcp: no route to host") (.response 200)
    "dial tcp: no route to host" rfl
  ⟨rfl, h.1, h.2.1⟩

/-! ## Alert failures, startup and stop -/

theorem tickStep_state_indep (n : Notifier) (st : LoopState) (get : GetOutcome)
    (post post2 : PostOutcome) :
    (tickStep n st get post).1 = (tickStep n st get post2).1 ∧
      alerts (tickStep n st get post).2 = alerts (tickStep n st get post2).2 := by
  cases h : GetGlobalIPv6 get with
  | error e => simp only [tickStep_error n st get _ e h, and_self]
  | ok B =>
    simp only [tickStep_ok n st get _ B h, alerts_append, true_and]
    split
    · simp only [alerts_log_cons, alerts_sendAndLog]
    · rfl

theorem startupStep_state_indep (n : Notifier) (get : GetOutcome) (post post2 : PostOutcome) :
    (startupStep n get post).1 = (startupStep n get post2).1 ∧
      alerts (startupStep n get post).2 = alerts (startupStep n get post2).2 := by
  cases h : GetGlobalIPv6 get with
  | error e => simp only [startupStep, h, and_self]
  | ok B => simp only [startupStep, h, alerts_append, alerts_sendAndLog, and_self]

theorem runLoop_state_indep (n : Notifier) (p : PostOutcome) (events : List SelectEvent) :
    ∀ st : LoopState,
      (runLoop n st events).1 = (runLoop n st (events.map (SelectEvent.withPost p))).1 := by
  induction events with
  | nil => intro st; rfl
  | cons ev rest ih =>
    intro st
    cases ev with
    | tick get post =>
      simp only [List.map_cons, SelectEvent.withPost, runLoop]
      rw [(tickStep_state_indep n st get post p).1]
      exact ih _
    | stop post => rfl

/-- C4: what the POST of an alert hands back never reaches the state of the monitor.  For
any two outcomes `post` and `post2` (for instance a failure and a success) the tick branch,
the startup check and the stop branch end in the same state (`lastIPv6` and running flag) and
attempt the same alerts; the same holds for whole runs of `monitorIPv6`, whatever the outcomes
of the POSTs along the way; and on a change from `A` to `B` whose send fails the alert is
still attempted, `lastIPv6` becomes `B` and the loop is still running. -/
theorem send_outcome_never_influences_monitoring (s : ipv6Service) (n : Notifier)
    (st : LoopState) (get : GetOutcome) (post post2 : PostOutcome) (events : List SelectEvent) :
    ((tickStep n st get post).1 = (tickStep n st get post2).1 ∧
      alerts (tickStep n st get post).2 = alerts (tickStep n st get post2).2) ∧
    ((startupStep n get post).1 = (startupStep n get post2).1 ∧
      alerts (startupStep n get post).2 = alerts (startupStep n get post2).2) ∧
    ((stopStep n st post).1 = (stopStep n st post2).1 ∧
      alerts (stopStep n st post).2 = alerts (stopStep n st post2).2) ∧
    (monitorBody s get post events).1 =
      (monitorBody s get post2 (events.map (SelectEvent.withPost post2))).1 ∧
    (∀ A B : String, A ≠ "" → B ≠ A → GetGlobalIPv6 get = .ok B →
      n.SendMessage (changedMessage A B) post ≠ none →
      alerts (tickStep n { lastIPv6 := A, running := true } get post).2 =
          [changedMessage A B] ∧
        (tickStep n { lastIPv6 := A, running := true } get post).1 =
          { lastIPv6 := B, running := true }) := by
  refine ⟨tickStep_state_indep n st get post post2, startupStep_state_indep n get post post2,
    ⟨rfl, ?_⟩, ?_, ?_⟩
  · simp only [stopStep, alerts_log_cons, alerts_append, alerts_sendAndLog]
  · simp only [monitorBody]
    rw [(startupStep_state_indep _ get post post2).1]
    exact runLoop_state_indep _ post2 events _
  · intro A B hA hB hget _
    rw [tickStep_ok n _ get post B hget]
    refine ⟨?_, rfl⟩
    rw [if_pos ⟨hA, hB⟩]
    simp only [alerts_append, alerts_probe_cons, alerts_log_cons, alerts_sendAndLog,
      alerts_nil, List.nil_append]

theorem send_outcome_never_influences_monitoring_witness :
    ("2001:db8::1" : String) ≠ "" ∧ ("2001:db8::2" : String) ≠ "2001:db8::1" ∧
      GetGlobalIPv6 (.response 200 (.ok "2001:db8::2\n")) = .ok "2001:db8::2" ∧
      Notifier.SendMessage ⟨"token", "42"⟩ (changedMessage "2001:db8::1" "2001:db8::2")
        (.transportError "timeout") ≠ none ∧
      (tickStep ⟨"token", "42"⟩ { lastIPv6 := "2001:db8::1", running := true }
          (.response 200 (.ok "2001:db8::2\n")) (.transportError "timeout")).1 =
        { lastIPv6 := "2001:db8::2", running := true } :=
  have hfail : Notifier.SendMessage ⟨"token", "42"⟩ (changedMessage "2001:db8::1" "2001:db8::2")
      (.transportError "timeout") ≠ none := by
    simp [Notifier.SendMessage]
  have h := (send_outcome_never_influences_monitoring ⟨5 * Minute, "token", "42"⟩
    ⟨"token", "42"⟩ { lastIPv6 := "2001:db8::1", running := true }
    (.response 200 (.ok "2001:db8::2\n")) (.transportError "timeout") (.response 200)
    []).2.2.2.2 "2001:db8::1" "2001:db8::2" (by decide) (by decide) rfl hfail
  ⟨by decide, by decide, rfl, hfail, h.2⟩

/-- C5: the startup step of `monitorIPv6`, before any tick is processed.  If the immediate
probe succeeds with `X`, exactly one `SendMessage` call is made, with the text
`🚀 Service started\nCurrent IPv6: <code>X</code>`, and `lastIPv6 = X`; if it fails, no
`SendMessage` call is made and `lastIPv6` is empty.  Either way the loop is then running, and
everything the loop does comes after the effects of the startup step, from that state. -/
theorem startup_step_alert_and_baseline (s : ipv6Service) (get : GetOutcome)
    (post : PostOutcome) :
    (∀ X : String, GetGlobalIPv6 get = .ok X →
      alerts (monitorBody s get post []).2 =
          ["🚀 Service started\nCurrent IPv6: <code>" ++ X ++ "</code>"] ∧
        (monitorBody s get post []).1 = { lastIPv6 := X, running := true }) ∧
    (∀ e : String, GetGlobalIPv6 get = .error e →
      alerts (monitorBody s get post []).2 = [] ∧
        (monitorBody s get post []).1 = { lastIPv6 := "", running := true }) ∧
    (∀ events : List SelectEvent,
      (monitorBody s get post events).2 =
        (monitorBody s get post []).2 ++
          (runLoop (NewNotifier s.botToken s.chatID) (monitorBody s get post []).1 events).2) := by
  refine ⟨?_, ?_, ?_⟩
  · intro X h
    simp only [monitorBody, runLoop, startupStep, h, List.append_nil, alerts_append,
      alerts_probe_cons, alerts_log_cons, alerts_sendAndLog, alerts_nil, List.nil_append,
      startedMessage, and_self]
  · intro e h
    simp only [monitorBody, runLoop, startupStep, h, List.append_nil,
      alerts_probe_cons, alerts_log_cons, alerts_nil, and_self]
  · intro events
    simp only [monitorBody, runLoop, List.append_nil]

theorem startup_step_alert_and_baseline_witness :
    GetGlobalIPv6 (.response 200 (.ok "2001:db8::1\n")) = .ok "2001:db8::1" ∧
      alerts (monitorBody ⟨5 * Minute, "token", "42"⟩ (.response 200 (.ok "2001:db8::1\n"))
          (.response 200) []).2 =
        ["🚀 Service started\nCurrent IPv6: <code>2001:db8::1</code>"] ∧
      (monitorBody ⟨5 * Minute, "token", "42"⟩ (.response 200 (.ok "2001:db8::1\n"))
          (.response 200) []).1 = { lastIPv6 := "2001:db8::1", running := true } :=
  ⟨rfl, (startup_step_alert_and_baseline ⟨5 * Minute, "token", "42"⟩
    (.response 200 (.ok "2001:db8::1\n")) (.response 200)).1 "2001:db8::1" rfl⟩

/-- C6: when the loop takes the stop branch, whatever `lastIPv6` is and whatever the POST
hands back, exactly one `SendMessage` call is made, with the text `🛑 Service stopped`, no
probe is made, and `monitorIPv6` returns: the state is no longer running, `lastIPv6` is
untouched, and the events after the stop branch contribute nothing. -/
theorem stop_branch_sends_one_alert_and_returns (n : Notifier) (st : LoopState)
    (post : PostOutcome) (rest : List SelectEvent) :
    alerts (runLoop n st (.stop post :: rest)).2 = ["🛑 Service stopped"] ∧
      probes (runLoop n st (.stop post :: rest)).2 = 0 ∧
      (runLoop n st (.stop post :: rest)).1 = { lastIPv6 := st.lastIPv6, running := false } ∧
      runLoop n st (.stop post :: rest) = runLoop n st [.stop post] := by
  refine ⟨?_, ?_, rfl, rfl⟩
  · simp only [runLoop, stopStep, alerts_log_cons, alerts_append, alerts_sendAndLog,
      alerts_tickerStop_cons, alerts_nil, List.append_nil, stoppedMessage]
  · simp only [runLoop, stopStep, probes_log_cons, probes_append, probes_sendAndLog,
      probes_tickerStop_cons, probes_nil]

/-! ## Two successive observations -/

theorem runLoop_tick_cons (n : Notifier) (st : LoopState) (get : GetOutcome)
    (post : PostOutcome) (rest : List SelectEvent) :
    runLoop n st (.tick get post :: rest) =
      ((runLoop n (tickStep n st get post).1 rest).1,
        (tickStep n st get post).2 ++ (runLoop n (tickStep n st get post).1 rest).2) := rfl

theorem runLoop_ticks_append (n : Notifier) (pre evs : List SelectEvent)
    (hticks : ∀ ev ∈ pre, ev.isTick = true) :
    ∀ st : LoopState,
      runLoop n st (pre ++ evs) =
        ((runLoop n (runLoop n st pre).1 evs).1,
          (runLoop n st pre).2 ++ (runLoop n (runLoop n st pre).1 evs).2) := by
  induction pre with
  | nil => intro st; simp [runLoop]
  | cons ev rest ih =>
    intro st
    have hrest : ∀ e ∈ rest, e.isTick = true := fun e he => hticks e (List.mem_cons_of_mem _ he)
    cases ev with
    | tick get post =>
      rw [List.cons_append, runLoop_tick_cons, runLoop_tick_cons, ih hrest, List.append_assoc]
    | stop post =>
      have := hticks (.stop post) (List.mem_cons_self _ _)
      simp [SelectEvent.isTick] at this

theorem runLoop_ticks_state (n : Notifier) (pre : List SelectEvent)
    (hticks : ∀ ev ∈ pre, ev.isTick = true) :
    ∀ st : LoopState,
      (runLoop n st pre).1 =
        { lastIPv6 := (successes (tickGets pre)).getLastD st.lastIPv6, running := st.running } := by
  induction pre with
  | nil => intro st; rfl
  | cons ev rest ih =>
    intro st
    have hrest : ∀ e ∈ rest, e.isTick = true := fun e he => hticks e (List.mem_cons_of_mem _ he)
    cases ev with
    | tick get post =>
      simp only [runLoop, tickGets, successes]
      rw [ih hrest]
      cases h : GetGlobalIPv6 get with
      | error e => simp only [tickStep_error n st get post e h]
      | ok B =>
        simp only [tickStep_ok n st get post B h]
        cases successes (tickGets rest) <;> rfl
    | stop post =>
      have := hticks (.stop post) (List.mem_cons_self _ _)
      simp [SelectEvent.isTick] at this

theorem monitorBody_ticks_state (s : ipv6Service) (get0 : GetOutcome) (post0 : PostOutcome)
    (pre : List SelectEvent) (hticks : ∀ ev ∈ pre, ev.isTick = true) :
    (monitorBody s get0 post0 pre).1 =
      { lastIPv6 := (successes (get0 :: tickGets pre)).getLastD "", running := true } := by
  simp only [monitorBody, runLoop_ticks_state _ pre hticks, successes]
  cases h : GetGlobalIPv6 get0 with
  | error e => simp only [startupStep, h]
  | ok X =>
    simp only [startupStep, h]
    cases successes (tickGets pre) <;> rfl

/-- C7, as amended: take a fresh `monitorIPv6` (no baseline), a startup probe and any number
of ticks among which exactly one probe succeeded, with a NON-EMPTY address `A`; if the next
tick's probe succeeds with `B ≠ A`, that tick adds exactly one alert to those attempted so
far, the change alert naming `A` as old and `B` as new, and `lastIPv6` becomes `B`. -/
theorem change_alert_after_first_observation (s : ipv6Service) (get0 : GetOutcome)
    (post0 : PostOutcome) (pre : List SelectEvent) (get : GetOutcome) (post : PostOutcome)
    (A B : String) (hA : A ≠ "") (hAB : A ≠ B)
    (hticks : ∀ ev ∈ pre, ev.isTick = true)
    (hfirst : successes (get0 :: tickGets pre) = [A])
    (hB : GetGlobalIPv6 get = .ok B) :
    alerts (monitorBody s get0 post0 (pre ++ [.tick get post])).2 =
        alerts (monitorBody s get0 post0 pre).2 ++
          ["📢 IPv6 address changed\nOld: <code>" ++ A ++ "</code>\nNew: <code>" ++ B ++
            "</code>"] ∧
      (monitorBody s get0 post0 (pre ++ [.tick get post])).1 =
        { lastIPv6 := B, running := true } := by
  have hst := monitorBody_ticks_state s get0 post0 pre hticks
  rw [hfirst] at hst
  simp only [List.getLastD_cons, List.getLastD_nil] at hst
  simp only [monitorBody] at hst ⊢
  rw [runLoop_ticks_append _ pre _ hticks, hst]
  have hstep := tickStep_changed (NewNotifier s.botToken s.chatID) A B true
    get post hA (Ne.symm hAB) hB
  simp only [runLoop, List.append_nil, alerts_append, hstep.1, hstep.2, List.append_assoc,
    changedMessage, and_self]

theorem change_alert_after_first_observation_witness :
    ("2001:db8::1" : String) ≠ "" ∧ ("2001:db8::1" : String) ≠ "2001:db8::2" ∧
      successes (.transportError "no route" ::
        tickGets [.tick (.response 200 (.ok "2001:db8::1\n")) (.response 200)]) =
          ["2001:db8::1"] ∧
      alerts (monitorBody ⟨5 * Minute, "token", "42"⟩ (.transportError "no route")
          (.response 200)
          ([.tick (.response 200 (.ok "2001:db8::1\n")) (.response 200)] ++
            [.tick (.response 200 (.ok "2001:db8::2\n")) (.response 200)])).2 =
        ["📢 IPv6 address changed\nOld: <code>2001:db8::1</code>\nNew: <code>2001:db8::2</code>"] :=
  ⟨by decide, by decide, rfl,
    (change_alert_after_first_observation ⟨5 * Minute, "token", "42"⟩
      (.transportError "no route") (.response 200)
      [.tick (.response 200 (.ok "2001:db8::1\n")) (.response 200)]
      (.response 200 (.ok "2001:db8::2\n")) (.response 200) "2001:db8::1" "2001:db8::2"
      (by decide) (by decide) (by simp [SelectEvent.isTick]) rfl rfl).1⟩

/-- C7, as stated, fails when the first observation is the empty string, which
`GetGlobalIPv6` returns with no error for an empty or all-blank body: with `A = ""` and
`B = "2001:db8::2"`, the startup probe yielding `A` and the first tick's probe yielding `B`,
the only alert of the run is the startup alert; no change alert is attempted. -/
theorem change_alert_missing_after_empty_observation :
    ("" : String) ≠ "2001:db8::2" ∧
      GetGlobalIPv6 (.response 200 (.ok "\n")) = .ok "" ∧
      successes (.response 200 (.ok "\n") :: tickGets []) = [""] ∧
      GetGlobalIPv6 (.response 200 (.ok "2001:db8::2\n")) = .ok "2001:db8::2" ∧
      alerts (monitorBody ⟨5 * Minute, "token", "42"⟩ (.response 200 (.ok "\n")) (.response 200)
          ([] ++ [.tick (.response 200 (.ok "2001:db8::2\n")) (.response 200)])).2 =
        ["🚀 Service started\nCurrent IPv6: <code></code>"] ∧
      alerts (monitorBody ⟨5 * Minute, "token", "42"⟩ (.response 200 (.ok "\n")) (.response 200)
          ([] ++ [.tick (.response 200 (.ok "2001:db8::2\n")) (.response 200)])).2 ≠
        alerts (monitorBody ⟨5 * Minute, "token", "42"⟩ (.response 200 (.ok "\n"))
            (.response 200) []).2 ++
          ["📢 IPv6 address changed\nOld: <code>" ++ "" ++ "</code>\nNew: <code>" ++
            "2001:db8::2" ++ "</code>"] :=
  ⟨by decide, rfl, rfl, rfl, rfl, by decide⟩

/-! ## The address probe -/

/-- C8, the code at the failing input: `GetGlobalIPv6` never looks at the status code.  A
response `503` with an error page as body comes back as `(body trimmed, nil)`, as an address
with no error; in general every response whose body can be read is a success, whatever its
status code. -/
theorem GetGlobalIPv6_ignores_status_code :
    GetGlobalIPv6 (.response 503 (.ok "<html>503 Service Unavailable</html>\n")) =
        .ok "<html>503 Service Unavailable</html>" ∧
      ∀ (statusCode : Nat) (body : String),
        GetGlobalIPv6 (.response statusCode (.ok body)) = .ok (TrimSpace body) :=
  ⟨rfl, fun _ _ => rfl⟩

/-! ## The service control handler -/

theorem statuses_append (xs ys : List Effect) :
    statuses (xs ++ ys) = statuses xs ++ statuses ys := by
  induction xs with
  | nil => rfl
  | cons x xs ih => cases x <;> simp [statuses, ih]

theorem stopSignals_append (xs ys : List Effect) :
    stopSignals (xs ++ ys) = stopSignals xs + stopSignals ys := by
  induction xs with
  | nil => simp [stopSignals]
  | cons x xs ih => cases x <;> simp [stopSignals, ih]; omega

theorem executeLoop_before_stop (pre : List ChangeRequest)
    (hpre : ∀ q ∈ pre, q.Cmd ≠ Cmd.Stop ∧ q.Cmd ≠ Cmd.Shutdown) :
    (executeLoop pre).2 = none ∧
      statuses (executeLoop pre).1 =
        (pre.filter (fun q => decide (q.Cmd = Cmd.Interrogate))).map (fun q => q.CurrentStatus) ∧
      stopSignals (executeLoop pre).1 = 0 := by
  induction pre with
  | nil => exact ⟨rfl, rfl, rfl⟩
  | cons q rest ih =>
    have hrest : ∀ r ∈ rest, r.Cmd ≠ Cmd.Stop ∧ r.Cmd ≠ Cmd.Shutdown :=
      fun r hr => hpre r (List.mem_cons_of_mem _ hr)
    have hq := hpre q (List.mem_cons_self _ _)
    obtain ⟨h1, h2, h3⟩ := ih hrest
    by_cases hi : q.Cmd = Cmd.Interrogate
    · simp only [executeLoop, if_pos hi, h1, statuses, h2, stopSignals, h3]
      simp [List.filter_cons, hi]
    · have hns : ¬ (q.Cmd = Cmd.Stop ∨ q.Cmd = Cmd.Shutdown) := fun h => h.elim hq.1 hq.2
      simp only [executeLoop, if_neg hi, if_neg hns, h1, statuses, h2, stopSignals, h3]
      simp [List.filter_cons, hi]

theorem executeLoop_cons (c : ChangeRequest) (rest : List ChangeRequest) :
    executeLoop (c :: rest) =
      if c.Cmd = Cmd.Interrogate then
        (.status c.CurrentStatus :: (executeLoop rest).1, (executeLoop rest).2)
      else if c.Cmd = Cmd.Stop ∨ c.Cmd = Cmd.Shutdown then
        ([.log .info "Received shutdown command" [], .closeStopChan], some rest)
      else
        (.log .error "Unexpected control request" [("command", toString c.Cmd)] ::
          (executeLoop rest).1, (executeLoop rest).2) := rfl

theorem executeLoop_at_stop (pre : List ChangeRequest) (c : ChangeRequest)
    (post : List ChangeRequest)
    (hpre : ∀ q ∈ pre, q.Cmd ≠ Cmd.Stop ∧ q.Cmd ≠ Cmd.Shutdown)
    (hc : c.Cmd = Cmd.Stop ∨ c.Cmd = Cmd.Shutdown) :
    executeLoop (pre ++ c :: post) =
      ((executeLoop pre).1 ++ [.log .info "Received shutdown command" [], .closeStopChan],
        some post) := by
  induction pre with
  | nil =>
    have hi : ¬ c.Cmd = Cmd.Interrogate := by
      rcases hc with h | h <;> rw [h] <;> decide
    rw [List.nil_append, executeLoop_cons, if_neg hi, if_pos hc]
    rfl
  | cons q rest ih =>
    have hrest : ∀ r ∈ rest, r.Cmd ≠ Cmd.Stop ∧ r.Cmd ≠ Cmd.Shutdown :=
      fun r hr => hpre r (List.mem_cons_of_mem _ hr)
    have hq := hpre q (List.mem_cons_self _ _)
    rw [List.cons_append, executeLoop_cons, executeLoop_cons q rest, ih hrest]
    by_cases hi : q.Cmd = Cmd.Interrogate
    · rw [if_pos hi, if_pos hi]
      rfl
    · have hns : ¬ (q.Cmd = Cmd.Stop ∨ q.Cmd = Cmd.Shutdown) := fun h => h.elim hq.1 hq.2
      rw [if_neg hi, if_neg hi, if_neg hns, if_neg hns]
      rfl

/-- C9: `Execute` over the requests `pre ++ c :: post`, where no request of `pre` is a Stop or
a Shutdown and `c` is the first that is.  While only `pre` has arrived, the statuses reported
are StartPending, then Running accepting Stop and Shutdown, then the `CurrentStatus` of each
Interrogate of `pre` in order and nothing for any other request; the stop channel has not been
closed and `Execute` has not returned.  When `c` arrives the effects so far are followed by
one log line, one close of the stop channel and the report of StopPending, so the stop
signal is issued exactly once; `Execute` returns `(false, 0)` and the requests of `post` are
never received. -/
theorem Execute_control_requests (s : ipv6Service) (args : List String)
    (pre : List ChangeRequest) (c : ChangeRequest) (post : List ChangeRequest)
    (hpre : ∀ q ∈ pre, q.Cmd ≠ Cmd.Stop ∧ q.Cmd ≠ Cmd.Shutdown)
    (hc : c.Cmd = Cmd.Stop ∨ c.Cmd = Cmd.Shutdown) :
    (statuses (Execute s args pre).effects =
        [{ State := .StartPending }, { State := .Running, Accepts := AcceptStop ||| AcceptShutdown }] ++
          (pre.filter (fun q => decide (q.Cmd = Cmd.Interrogate))).map (fun q => q.CurrentStatus) ∧
      stopSignals (Execute s args pre).effects = 0 ∧
      (Execute s args pre).ret = none) ∧
    ((Execute s args (pre ++ c :: post)).effects =
        (Execute s args pre).effects ++
          [.log .info "Received shutdown command" [], .closeStopChan,
            .status { State := .StopPending }] ∧
      statuses (Execute s args (pre ++ c :: post)).effects =
        [{ State := .StartPending }, { State := .Running, Accepts := AcceptStop ||| AcceptShutdown }] ++
          (pre.filter (fun q => decide (q.Cmd = Cmd.Interrogate))).map (fun q => q.CurrentStatus) ++
          [{ State := .StopPending }] ∧
      stopSignals (Execute s args (pre ++ c :: post)).effects = 1 ∧
      (Execute s args (pre ++ c :: post)).ret = some (false, 0) ∧
      (Execute s args (pre ++ c :: post)).unread = post) := by
  obtain ⟨h1, h2, h3⟩ := executeLoop_before_stop pre hpre
  have h4 := executeLoop_at_stop pre c post hpre hc
  have hE : Execute s args pre =
      { effects := [.status { State := .StartPending }, .log .info "Starting service" [],
          .status { State := .Running, Accepts := cmdsAccepted }, .makeStopChan,
          .spawnMonitor s.checkInterval s.botToken s.chatID] ++ (executeLoop pre).1,
        ret := none, unread := [] } := by
    unfold Execute
    generalize executeLoop pre = r at h1
    obtain ⟨eff, o⟩ := r
    simp only at h1
    subst h1
    rfl
  have hE2 : Execute s args (pre ++ c :: post) =
      { effects := [.status { State := .StartPending }, .log .info "Starting service" [],
          .status { State := .Running, Accepts := cmdsAccepted }, .makeStopChan,
          .spawnMonitor s.checkInterval s.botToken s.chatID] ++
            ((executeLoop pre).1 ++ [.log .info "Received shutdown command" [], .closeStopChan]) ++
            [.status { State := .StopPending }],
        ret := some (false, 0), unread := post } := by
    unfold Execute
    rw [h4]
  have hst : ∀ X : List Effect,
      statuses ([.status { State := .StartPending }, .log .info "Starting service" [],
          .status { State := .Running, Accepts := cmdsAccepted }, .makeStopChan,
          .spawnMonitor s.checkInterval s.botToken s.chatID] ++ X) =
        [{ State := .StartPending }, { State := .Running, Accepts := AcceptStop ||| AcceptShutdown }] ++
          statuses X := fun _ => rfl
  have hsig : ∀ X : List Effect,
      stopSignals ([.status { State := .StartPending }, .log .info "Starting service" [],
          .status { State := .Running, Accepts := cmdsAccepted }, .makeStopChan,
          .spawnMonitor s.checkInterval s.botToken s.chatID] ++ X) = stopSignals X :=
    fun _ => rfl
  have e1 : statuses [.log .info "Received shutdown command" [], .closeStopChan] = [] := rfl
  have e2 : statuses [.status { State := .StopPending }] = [{ State := .StopPending }] := rfl
  have e3 : stopSignals [.log .info "Received shutdown command" [], .closeStopChan] = 1 := rfl
  have e4 : stopSignals [.status { State := .StopPending }] = 0 := rfl
  rw [hE, hE2]
  refine ⟨⟨?_, ?_, rfl⟩, ?_, ?_, ?_, rfl, rfl⟩
  · show statuses (_ ++ (executeLoop pre).1) = _
    rw [hst, h2]
  · show stopSignals (_ ++ (executeLoop pre).1) = _
    rw [hsig, h3]
  · show _ ++ ((executeLoop pre).1 ++ _) ++ _ = _ ++ (executeLoop pre).1 ++ _
    simp only [List.append_assoc, List.cons_append, List.nil_append]
  · show statuses (_ ++ ((executeLoop pre).1 ++ _) ++ _) = _
    rw [statuses_append, hst, statuses_append, h2, e1, e2, List.append_nil]
  · show stopSignals (_ ++ ((executeLoop pre).1 ++ _) ++ _) = _
    rw [stopSignals_append, hsig, stopSignals_append, h3, e3, e4]

theorem Execute_control_requests_witness :
    (∀ q ∈ [({ Cmd := Cmd.Interrogate, CurrentStatus := { State := .Running, Accepts := 5 } } :
          ChangeRequest),
        { Cmd := Cmd.Pause, CurrentStatus := { State := .Running, Accepts := 5 } }],
      q.Cmd ≠ Cmd.Stop ∧ q.Cmd ≠ Cmd.Shutdown) ∧
    statuses (Execute ⟨5 * Minute, "token", "42"⟩ []
        ([({ Cmd := Cmd.Interrogate, CurrentStatus := { State := .Running, Accepts := 5 } } :
            ChangeRequest),
          { Cmd := Cmd.Pause, CurrentStatus := { State := .Running, Accepts := 5 } }] ++
          { Cmd := Cmd.Stop, CurrentStatus := { State := .Running, Accepts := 5 } } ::
            [{ Cmd := Cmd.Interrogate, CurrentStatus := { State := .StopPending } }])).effects =
      [{ State := .StartPending }, { State := .Running, Accepts := 5 },
        { State := .Running, Accepts := 5 }, { State := .StopPending }] ∧
    (Execute ⟨5 * Minute, "token", "42"⟩ []
        ([({ Cmd := Cmd.Interrogate, CurrentStatus := { State := .Running, Accepts := 5 } } :
            ChangeRequest),
          { Cmd := Cmd.Pause, CurrentStatus := { State := .Running, Accepts := 5 } }] ++
          { Cmd := Cmd.Stop, CurrentStatus := { State := .Running, Accepts := 5 } } ::
            [{ Cmd := Cmd.Interrogate, CurrentStatus := { State := .StopPending } }])).ret =
      some (false, 0) :=
  have hpre : ∀ q ∈
      [({ Cmd := Cmd.Interrogate, CurrentStatus := { State := .Running, Accepts := 5 } } :
          ChangeRequest),
        { Cmd := Cmd.Pause, CurrentStatus := { State := .Running, Accepts := 5 } }],
      q.Cmd ≠ Cmd.Stop ∧ q.Cmd ≠ Cmd.Shutdown := by decide
  have h := Execute_control_requests ⟨5 * Minute, "token", "42"⟩ []
    [{ Cmd := Cmd.Interrogate, CurrentStatus := { State := .Running, Accepts := 5 } },
      { Cmd := Cmd.Pause, CurrentStatus := { State := .Running, Accepts := 5 } }]
    { Cmd := Cmd.Stop, CurrentStatus := { State := .Running, Accepts := 5 } }
    [{ Cmd := Cmd.Interrogate, CurrentStatus := { State := .StopPending } }]
    hpre (Or.inl rfl)
  ⟨hpre, h.2.2.1, h.2.2.2.2.1⟩

/-! ## Configuration -/

/-- C10, the code at the failing input: with `--check-interval 0` and both credentials
given, `main` passes its only validation and starts `monitorIPv6` in console mode with a
period of `0`, on which `time.NewTicker` panics before any probe; with
`--check-interval 153722868` the product with `time.Minute` wraps to a negative period and
the same panic follows. -/
theorem main_starts_monitor_with_unusable_interval (get : GetOutcome) (post : PostOutcome)
    (events : List SelectEvent) :
    (main { checkInterval := 0, botToken := "token", chatID := "42" } (.ok false) =
        .consoleMode { checkInterval := 0, botToken := "token", chatID := "42" } ∧
      monitorIPv6 { checkInterval := 0, botToken := "token", chatID := "42" } get post events =
        .error "non-positive interval for NewTicker") ∧
    (main { checkInterval := 153722868, botToken := "token", chatID := "42" } (.ok false) =
        .consoleMode
          { checkInterval := -9223371993709551616, botToken := "token", chatID := "42" } ∧
      monitorIPv6 { checkInterval := -9223371993709551616, botToken := "token", chatID := "42" }
          get post events =
        .error "non-positive interval for NewTicker") :=
  ⟨⟨by decide, rfl⟩, ⟨by decide, rfl⟩⟩

/-- What does hold of the configuration: whenever `main` starts `monitorIPv6`, both
credentials are non-empty and the period is the wrapped product of the flag with
`time.Minute`; for a flag between 1 and 153722867 that product is exact and positive and the
ticker is constructed. -/
theorem main_validates_credentials_only (f : Flags) (isService : Except String Bool)
    (s : ipv6Service) (h : (main f isService).startsMonitor = some s) :
    f.botToken ≠ "" ∧ f.chatID ≠ "" ∧ s.botToken = f.botToken ∧ s.chatID = f.chatID ∧
      s.checkInterval = wrapInt64 (f.checkInterval * Minute) ∧
      (1 ≤ f.checkInterval → f.checkInterval ≤ 153722867 →
        s.checkInterval = f.checkInterval * Minute ∧ 0 < s.checkInterval ∧
          NewTicker s.checkInterval = .ok s.checkInterval) := by
  unfold main at h
  by_cases hcred : f.botToken = "" ∨ f.chatID = ""
  · rw [if_pos hcred] at h
    simp [MainOutcome.startsMonitor] at h
  · rw [if_neg hcred] at h
    have hs : s = ⟨wrapInt64 (f.checkInterval * Minute), f.botToken, f.chatID⟩ := by
      rcases isService with e | b
      · simp [MainOutcome.startsMonitor] at h
      · cases b <;> simp [MainOutcome.startsMonitor] at h <;> exact h.symm
    subst hs
    refine ⟨fun h0 => hcred (Or.inl h0), fun h0 => hcred (Or.inr h0), rfl, rfl, rfl, ?_⟩
    intro h1 h2
    have hw : wrapInt64 (f.checkInterval * Minute) = f.checkInterval * Minute := by
      unfold wrapInt64 Minute
      omega
    have hpos : 0 < f.checkInterval * Minute := by
      unfold Minute
      omega
    simp only [hw]
    refine ⟨trivial, hpos, ?_⟩
    unfold NewTicker
    rw [if_neg (by omega)]

end IPv6Monitor
